import Mathlib

/-
Verification of the superaccept simulation script (superaccept.py).

The script evaluates the "superaccept" bidding convention over random
bridge deals.  Its algorithmic core is the pure function `contract`,
which maps a deal and a convention flag to the contract the partnership
reaches (or `None` when the convention cannot matter), plus the filter
`accept` and the per-trial counter update in `do`.

The embedding below transcribes that code.  A hand is modelled by its
four suit holdings and its high-card-point count; a holding carries the
three attributes the script reads from the external `redeal` library:
its length (`len(holding)`), its playing-trick evaluation (`holding.pt`)
and its loser count (`holding.losers`).  The latter two are opaque
numeric features supplied by the library, so they appear here as plain
numeric fields.  Contracts are the three-character codes the script
builds (level digit, strain letter, declarer letter), modelled as lists
of characters.
-/

namespace Superaccept

/-- One suit holding, with the three attributes of the external library
that superaccept.py reads: card count, playing tricks, losers. -/
structure Holding where
  len : Nat
  pt : Int
  losers : Nat
deriving DecidableEq

/-- One hand: four suit holdings plus the hand's high-card points
(`hand.hcp` in the script). -/
structure Hand where
  spades : Holding
  hearts : Holding
  diamonds : Holding
  clubs : Holding
  hcp : Nat
deriving DecidableEq

/-- A deal: the four seats.  North is the transfer responder, South the
1NT opener; East and West are never read by the script's core. -/
structure Deal where
  north : Hand
  south : Hand
  east : Hand
  west : Hand
deriving DecidableEq

/-- short_suit_points(holding): 3+ cards = 0, doubleton = 1,
singleton = 2, void = 3. -/
def short_suit_points (holding : Holding) : Nat :=
  if holding.len >= 3 then 0
  else if holding.len = 2 then 1
  else if holding.len = 1 then 2
  else 3

/-- dist_points(hand): sum of short-suit points over the four suits. -/
def dist_points (hand : Hand) : Nat :=
  short_suit_points hand.spades + short_suit_points hand.hearts +
    short_suit_points hand.diamonds + short_suit_points hand.clubs

/-- North's total points: `ntp = nhcp + dist_points(deal.north)`. -/
def ntp (d : Deal) : Nat := d.north.hcp + dist_points d.north

/-- Suit chosen in the 6-card branch (lines 82-89 of the script):
a lone 6-card major, ties between two broken by playing tricks. -/
def suit6 (d : Deal) : Char :=
  if d.north.spades.len < 6 then 'H'
  else if d.north.hearts.len < 6 then 'S'
  else if d.north.spades.pt >= d.north.hearts.pt then 'S'
  else 'H'

/-- South's support length for the 6-card-branch suit (`sl`). -/
def sl6 (d : Deal) : Nat :=
  if suit6 d = 'H' then d.south.hearts.len else d.south.spades.len

/-- Suit chosen in the 5-card branch (lines 112-130 of the script):
a lone 5-card major; with two of them, spades with 10+ total points,
hearts with exactly 9, otherwise the suit with fewer losers (ties to
spades, since the comparison is non-strict). -/
def suit5 (d : Deal) : Char :=
  if d.north.spades.len < 5 then 'H'
  else if d.north.hearts.len < 5 then 'S'
  else if ntp d >= 10 then 'S'
  else if ntp d = 9 then 'H'
  else if d.north.spades.losers <= d.north.hearts.losers then 'S'
  else 'H'

/-- South's support length for the 5-card-branch suit (`ssl`). -/
def ssl (d : Deal) : Nat :=
  if suit5 d = 'H' then d.south.hearts.len else d.south.spades.len

/-- North's length in the other major in the 5-card branch (`nol`). -/
def nol (d : Deal) : Nat :=
  if suit5 d = 'H' then d.north.spades.len else d.north.hearts.len

/-- contract(deal, use_superaccept): the decision engine (lines 65-184).
Returns the contract as its three-character code, or `none` where the
script returns `None`. -/
def contract (d : Deal) (use_superaccept : Bool) : Option (List Char) :=
  if d.north.spades.len >= 6 ∨ d.north.hearts.len >= 6 then
    -- 6-card-suit branch
    if ntp d >= 10 then none
    else if sl6 d < 4 then none
    else if use_superaccept then
      if ntp d >= 8 then some ['4', suit6 d, 'S'] else some ['3', suit6 d, 'S']
    else
      if ntp d = 9 then some ['4', suit6 d, 'S'] else some ['2', suit6 d, 'S']
  else
    -- 5-card-suit branch
    if ssl d < 4 then none
    else if nol d = 4 ∧ d.north.hcp >= 9 then none
    else if use_superaccept then
      if ntp d >= 8 then some ['4', suit5 d, 'S'] else some ['3', suit5 d, 'S']
    else if nol d = 5 then
      -- North is 5-5 in the majors
      if ntp d >= 10 then
        if d.south.hearts.len > d.south.spades.len then some ['4', 'H', 'N']
        else some ['4', 'S', 'S']
      else if ntp d = 9 then
        if d.south.spades.len > d.south.hearts.len then some ['4', 'S', 'N']
        else some ['4', 'H', 'S']
      else some ['2', suit5 d, 'S']
    else if d.north.hcp >= 9 then some ['4', suit5 d, 'S']
    else some ['2', suit5 d, 'S']

/-- accept(deal), lines 187-203.  `some b` is a normal return of `b`;
`none` models the `assert` on line 197 firing (process abort). -/
def accept (d : Deal) : Option Bool :=
  if d.north.spades.len < 5 ∧ d.north.hearts.len < 5 then some false
  else if d.south.spades.len < 4 ∧ d.south.hearts.len < 4 then some false
  else
    let sc := contract d true
    let nsc := contract d false
    if sc = none ∨ nsc = none then
      if sc = none ∧ nsc = none then some false else none
    else if sc = nsc then some false else some true

/-- The SAME_SCORE update of do() (lines 220-221): given the counter and
the two non-vulnerable double-dummy scores, increment when the scores are
equal, the superaccept contract's level character is greater and the
strain characters agree. -/
def same_score_after (same_score : Nat) (ns_nv s_nv : Int)
    (sc nsc : List Char) : Nat :=
  if ns_nv = s_nv ∧ sc.getD 0 ' ' > nsc.getD 0 ' ' ∧
      nsc.getD 1 ' ' = sc.getD 1 ' ' then
    same_score + 1
  else same_score

/-- Numeric auction level encoded by a contract code's first character. -/
def levelOf (c : List Char) : Nat := (c.getD 0 ' ').toNat - 48

/-- Strain character of a contract code. -/
def strainOf (c : List Char) : Char := c.getD 1 ' '

/- Concrete deals used as witnesses and counterexamples.  In each deal
the four suit lengths of every hand sum to 13, every suit has 13 cards
across the four hands, and the four hcp values sum to 40, so each deal
is realisable with actual cards. -/

/-- Holding with given length (playing tricks and losers zeroed; the
claims never evaluate those attributes on these deals). -/
def mkHolding (l : Nat) : Holding := ⟨l, 0, 0⟩

/-- Hand from four suit lengths and an hcp count. -/
def mkHand (s h dia c hcp : Nat) : Hand :=
  ⟨mkHolding s, mkHolding h, mkHolding dia, mkHolding c, hcp⟩

/-- C2 counterexample deal: North holds 4-5-3-1 with 8 HCP (so 10 total
points but fewer than 9 HCP), South 3-4-3-3 with 17 HCP. -/
def dealC2 : Deal :=
  ⟨mkHand 4 5 3 1 8, mkHand 3 4 3 3 17, mkHand 3 2 4 4 9, mkHand 3 2 3 5 6⟩

/-- C2 amended-claim witness deal: North 4-5-2-2 with 9 HCP. -/
def dealC2w : Deal :=
  ⟨mkHand 4 5 2 2 9, mkHand 3 4 3 3 17, mkHand 3 2 4 4 8, mkHand 3 2 4 4 6⟩

/-- C3 deal: North holds a 6-card heart suit, 7 HCP, 9 total points;
South 3-4-3-3 with 17 HCP (so South's total is 17, not 9). -/
def dealC3 : Deal :=
  ⟨mkHand 3 6 2 2 7, mkHand 3 4 3 3 17, mkHand 4 2 4 3 9, mkHand 3 1 4 5 7⟩

/-- C4 counterexample deal: South (the opener) holds exactly one 5-card
major and 17 HCP; North holds one 5-card major and only 7 HCP. -/
def dealC4 : Deal :=
  ⟨mkHand 3 5 3 2 7, mkHand 5 4 2 2 17, mkHand 3 2 4 4 8, mkHand 2 2 4 5 8⟩

/-- C4 amended-claim witness deal: North with 10 HCP. -/
def dealC4w : Deal :=
  ⟨mkHand 3 5 3 2 10, mkHand 3 4 3 3 17, mkHand 4 2 3 4 7, mkHand 3 2 4 4 6⟩

/-- C5 counterexample deal: South (the opener) is 5-5 in the majors with
17 HCP; North holds a lone 5-card heart suit with 9 total points. -/
def dealC5 : Deal :=
  ⟨mkHand 3 5 3 2 8, mkHand 5 5 2 1 17, mkHand 3 2 4 4 8, mkHand 2 1 4 6 7⟩

/-- C5 amended-claim witness deal: North is 5-5 with 11 total points. -/
def dealC5w : Deal :=
  ⟨mkHand 5 5 2 1 8, mkHand 4 3 3 3 17, mkHand 2 3 4 4 8, mkHand 2 2 4 5 7⟩

/-- C6 deal: exactly the scenario of the claim.  South: 4 spades,
3 hearts, 3-3 in the minors, 17 HCP.  North: 5 hearts, 3 spades,
7 HCP + 1 distribution point = 8 total points, no 4-card spade suit. -/
def dealC6 : Deal :=
  ⟨mkHand 3 5 3 2 7, mkHand 4 3 3 3 17, mkHand 3 3 4 3 8, mkHand 3 2 3 5 8⟩

/-- C7 witness deal: North is 5-5 with exactly 9 total points. -/
def dealC7 : Deal :=
  ⟨mkHand 5 5 2 1 6, mkHand 3 4 3 3 17, mkHand 3 2 4 4 9, mkHand 2 2 4 5 8⟩

/-- C8 witness deal: a relevant deal (the two contracts differ). -/
def dealC8 : Deal :=
  ⟨mkHand 4 5 3 1 8, mkHand 3 4 3 3 17, mkHand 3 2 3 5 7, mkHand 3 2 4 4 8⟩

/-- C9 witness deal, first copy. -/
def dealC9a : Deal :=
  ⟨mkHand 4 5 3 1 8, mkHand 3 4 3 3 17, mkHand 3 2 4 4 9, mkHand 3 2 3 5 6⟩

/-- C9 witness deal, second copy: same North and South hands, but East
and West exchanged. -/
def dealC9b : Deal :=
  ⟨mkHand 4 5 3 1 8, mkHand 3 4 3 3 17, mkHand 3 2 3 5 6, mkHand 3 2 4 4 9⟩

/-- C10 witness deal: North 3-5-3-2 with 10 HCP. -/
def dealC10 : Deal :=
  ⟨mkHand 3 5 3 2 10, mkHand 3 4 3 3 17, mkHand 4 2 4 3 6, mkHand 3 2 3 5 7⟩

/-- The 5-card-branch suit is always one of the two majors. -/
theorem suit5_cases (d : Deal) : suit5 d = 'H' ∨ suit5 d = 'S' := by
  unfold suit5
  split_ifs <;> simp

/-- The 6-card-branch suit is always one of the two majors. -/
theorem suit6_cases (d : Deal) : suit6 d = 'H' ∨ suit6 d = 'S' := by
  unfold suit6
  split_ifs <;> simp

/-- Every contract code the engine returns starts with a level digit
between '2' and '4'. -/
theorem contract_level_char (d : Deal) (b : Bool) (c : List Char)
    (h : contract d b = some c) :
    c.getD 0 ' ' = '2' ∨ c.getD 0 ' ' = '3' ∨ c.getD 0 ' ' = '4' := by
  unfold contract at h
  split_ifs at h <;>
    first
      | (simp only [Option.some.injEq] at h; subst h;
         first
           | exact Or.inl rfl
           | exact Or.inr (Or.inl rfl)
           | exact Or.inr (Or.inr rfl))

/-- On the level digits the engine uses, character order agrees with the
order of the encoded numeric levels. -/
theorem char_digit_lt_iff (a b : Char)
    (ha : a = '2' ∨ a = '3' ∨ a = '4')
    (hb : b = '2' ∨ b = '3' ∨ b = '4') :
    (b < a) ↔ (b.toNat - 48 < a.toNat - 48) := by
  rcases ha with h | h | h <;> rcases hb with h2 | h2 | h2 <;>
    subst h <;> subst h2 <;> decide

/-- With the superaccept flag set, every defined contract is at level 3
or level 4 in a major, declared by South. -/
theorem contract_true_cases (d : Deal) (b : Bool) (hb : b = true)
    (c : List Char) (h : contract d b = some c) :
    ∃ su, (su = 'H' ∨ su = 'S') ∧
      (c = ['3', su, 'S'] ∨ c = ['4', su, 'S']) := by
  unfold contract at h
  split_ifs at h <;>
    first
      | exact absurd hb (by assumption)
      | (simp only [Option.some.injEq] at h; subst h;
         first
           | exact ⟨suit6 d, suit6_cases d, Or.inl rfl⟩
           | exact ⟨suit6 d, suit6_cases d, Or.inr rfl⟩
           | exact ⟨suit5 d, suit5_cases d, Or.inl rfl⟩
           | exact ⟨suit5 d, suit5_cases d, Or.inr rfl⟩)

/-- The engine returns undefined exactly on the guard conditions that
precede any use of the convention flag, for either flag value. -/
theorem contract_none_iff (d : Deal) (b : Bool) :
    contract d b = none ↔
      ((d.north.spades.len >= 6 ∨ d.north.hearts.len >= 6) ∧
        (ntp d >= 10 ∨ sl6 d < 4)) ∨
      (¬(d.north.spades.len >= 6 ∨ d.north.hearts.len >= 6) ∧
        (ssl d < 4 ∨ (nol d = 4 ∧ d.north.hcp >= 9))) := by
  unfold contract
  split_ifs <;> simp_all

/-- C1: for every deal the decision engine returns undefined for
superaccept=true exactly when it returns undefined for
superaccept=false, so the agreement assertion in the scenario filter
(line 197) never fails: `accept` never aborts. -/
theorem c1_divergence_invariant (d : Deal) :
    ((contract d true = none) ↔ (contract d false = none)) ∧
      accept d ≠ none := by
  have hiff : (contract d true = none) ↔ (contract d false = none) := by
    rw [contract_none_iff d true, contract_none_iff d false]
  refine ⟨hiff, ?_⟩
  simp only [accept]
  split_ifs <;> first | (simp; tauto) | simp

/-- C2 counterexample: North holds 4-5-3-1 with 8 HCP, hence exactly 4
cards in the other major (spades) and 10 total points, at least 9.  The
claim predicts the engine returns undefined for both flag values, yet it
returns 4H (superaccept) and 2H (no superaccept): line 146 of the
script tests `nhcp >= 9`, the responder's HCP, not total points. -/
theorem c2_counterexample :
    dealC2.north.spades.len < 6 ∧ dealC2.north.hearts.len < 6 ∧
    nol dealC2 = 4 ∧ ntp dealC2 >= 9 ∧
    contract dealC2 true = some ['4', 'H', 'S'] ∧
    contract dealC2 false = some ['2', 'H', 'S'] := by decide

/-- C2 amended: in the 5-card-major branch, when the responder holds
exactly 4 cards in the other major and the responder's HCP (not total
points) is at least 9, the engine returns undefined for both flag
values. -/
theorem c2_amended (d : Deal) (hs : d.north.spades.len < 6)
    (hh : d.north.hearts.len < 6) (h4 : nol d = 4)
    (h9 : d.north.hcp >= 9) (b : Bool) : contract d b = none := by
  unfold contract
  rw [if_neg (by omega)]
  by_cases hssl : ssl d < 4
  · rw [if_pos hssl]
  · rw [if_neg hssl, if_pos ⟨h4, h9⟩]

/-- C2 amended witness: a concrete deal with 4 cards in the other major
and 9 HCP, where both invocations indeed return undefined. -/
theorem c2_amended_witness :
    nol dealC2w = 4 ∧ dealC2w.north.hcp >= 9 ∧
    contract dealC2w true = none ∧ contract dealC2w false = none :=
  ⟨by decide, by decide,
   c2_amended dealC2w (by decide) (by decide) (by decide) (by decide) true,
   c2_amended dealC2w (by decide) (by decide) (by decide) (by decide) false⟩

/-- C3 counterexample: North (the responder) holds a 6-card heart suit
with 9 total points, South (the opener) has 17 HCP and no short suit, so
the opener's total is 17, not 9 — yet the engine bids the level-4
contract 4H.  The claim predicts level 2 whenever the opener's total
differs from 9; line 104 of the script tests the responder's total. -/
theorem c3_counterexample :
    dealC3.north.hearts.len >= 6 ∧ ntp dealC3 = 9 ∧ sl6 dealC3 >= 4 ∧
    dealC3.south.hcp + dist_points dealC3.south = 17 ∧
    contract dealC3 false = some ['4', 'H', 'S'] := by decide

/-- C3 amended: in the 6-card-suit branch with superaccept=false
(responder total below 10, opener with 4+ support for the chosen suit),
the engine bids level 4 by the opener exactly when the responder's (not
the opener's) total points are exactly 9, and level 2 by the opener
otherwise. -/
theorem c3_amended (d : Deal)
    (h6 : d.north.spades.len >= 6 ∨ d.north.hearts.len >= 6)
    (h10 : ntp d < 10) (hsl : sl6 d >= 4) :
    (ntp d = 9 → contract d false = some ['4', suit6 d, 'S']) ∧
    (ntp d ≠ 9 → contract d false = some ['2', suit6 d, 'S']) := by
  unfold contract
  rw [if_pos h6, if_neg (by omega), if_neg (by omega),
    if_neg Bool.false_ne_true]
  constructor
  · intro h9; rw [if_pos h9]
  · intro h9; rw [if_neg h9]

/-- C3 amended witness: the `dealC3` deal has responder total exactly 9
and the engine indeed bids 4H without the superaccept. -/
theorem c3_amended_witness :
    ntp dealC3 = 9 ∧ contract dealC3 false = some ['4', 'H', 'S'] :=
  ⟨by decide,
   (c3_amended dealC3 (Or.inr (by decide)) (by decide) (by decide)).1
     (by decide)⟩

/-- C4 counterexample: South (the opener) holds exactly one 5-card
major (5 spades, 4 hearts) with 17 HCP, at least 9, so the claim
predicts a level-4 contract; but North has only 7 HCP, and the engine
(line 177 tests the responder's HCP) stops in 2H. -/
theorem c4_counterexample :
    dealC4.south.spades.len = 5 ∧ dealC4.south.hearts.len = 4 ∧
    dealC4.south.hcp = 17 ∧ dealC4.north.spades.len < 6 ∧
    dealC4.north.hearts.len < 6 ∧
    contract dealC4 false = some ['2', 'H', 'S'] := by decide

/-- C4 amended: in the 5-card-suit branch with superaccept=false, when
the responder (not the opener) holds only one 5-card major and the
guards have passed (4+ support, no Stayman bypass), the engine bids
level 4 by the opener exactly when the responder's (not the opener's)
HCP is at least 9, and level 2 by the opener otherwise. -/
theorem c4_amended (d : Deal) (hs : d.north.spades.len < 6)
    (hh : d.north.hearts.len < 6) (hssl : ssl d >= 4)
    (hg : ¬(nol d = 4 ∧ d.north.hcp >= 9)) (h5 : nol d ≠ 5) :
    (d.north.hcp >= 9 → contract d false = some ['4', suit5 d, 'S']) ∧
    (d.north.hcp < 9 → contract d false = some ['2', suit5 d, 'S']) := by
  unfold contract
  rw [if_neg (by omega), if_neg (by omega), if_neg hg,
    if_neg Bool.false_ne_true, if_neg h5]
  constructor
  · intro h9; rw [if_pos h9]
  · intro h9; rw [if_neg (by omega)]

/-- C4 amended witness: responder with a lone 5-card heart suit and
10 HCP; the engine bids game by the opener. -/
theorem c4_amended_witness :
    dealC4w.north.hcp >= 9 ∧
    contract dealC4w false = some ['4', 'H', 'S'] := by
  refine ⟨by decide, ?_⟩
  have h := (c4_amended dealC4w (by decide) (by decide) (by decide)
    (by decide) (by decide)).1 (by decide)
  have hs : suit5 dealC4w = 'H' := by decide
  rw [hs] at h
  exact h

/-- C5 counterexample: South (the opener) is 5-5 in the majors and
North (the responder) holds a lone 5-card heart suit with total points
exactly 9.  Under the claim the 5-5 sub-branch applies (opener 5-5,
total 9, suit lengths tied), giving the level-4 contract 4H by the
opener; the engine instead tests the responder's shape (`nol == 5`,
line 154), takes the single-major path and stops in 2H. -/
theorem c5_counterexample :
    dealC5.south.spades.len = 5 ∧ dealC5.south.hearts.len = 5 ∧
    ntp dealC5 = 9 ∧ dealC5.north.spades.len < 6 ∧
    dealC5.north.hearts.len < 6 ∧
    contract dealC5 false = some ['2', 'H', 'S'] := by decide

/-- C5 amended: the 5-5 sub-branch is entered exactly when the
responder (not the opener) holds 5 cards in both majors; the suit-length
comparisons inside it are on the opener's holdings, as the claim says:
with responder total at least 10, game in the longer of the opener's
majors (ties to spades, declarer North for hearts and South for
spades); with total exactly 9 the same comparison with ties to hearts
and the declaring sides flipped; with total below 9 a level-2 contract
by the opener. -/
theorem c5_amended (d : Deal) (hs5 : d.north.spades.len = 5)
    (hh5 : d.north.hearts.len = 5) (hssl : ssl d >= 4) :
    (ntp d >= 10 →
      (d.south.hearts.len > d.south.spades.len →
        contract d false = some ['4', 'H', 'N']) ∧
      (d.south.hearts.len <= d.south.spades.len →
        contract d false = some ['4', 'S', 'S'])) ∧
    (ntp d = 9 →
      (d.south.spades.len > d.south.hearts.len →
        contract d false = some ['4', 'S', 'N']) ∧
      (d.south.spades.len <= d.south.hearts.len →
        contract d false = some ['4', 'H', 'S'])) ∧
    (ntp d < 9 → contract d false = some ['2', suit5 d, 'S']) := by
  have hnol : nol d = 5 := by
    unfold nol; split_ifs <;> assumption
  unfold contract
  rw [if_neg (by omega), if_neg (by omega), if_neg (by simp [hnol]),
    if_neg Bool.false_ne_true, if_pos hnol]
  refine ⟨?_, ?_, ?_⟩
  · intro h10; rw [if_pos h10]
    constructor
    · intro hl; rw [if_pos hl]
    · intro hl; rw [if_neg (by omega)]
  · intro h9; rw [if_neg (by omega), if_pos h9]
    constructor
    · intro hl; rw [if_pos hl]
    · intro hl; rw [if_neg (by omega)]
  · intro hlt; rw [if_neg (by omega), if_neg (by omega)]

/-- C5 amended witness: responder 5-5 with 11 total points, opener with
4 spades and 3 hearts: game-forcing case, tie broken to spades is moot
(spades longer), 4S by South. -/
theorem c5_amended_witness :
    ntp dealC5w >= 10 ∧ dealC5w.north.spades.len = 5 ∧
    dealC5w.north.hearts.len = 5 ∧
    contract dealC5w false = some ['4', 'S', 'S'] :=
  ⟨by decide, by decide, by decide,
   ((c5_amended dealC5w (by decide) (by decide) (by decide)).1
     (by decide)).2 (by decide)⟩

/-- C6 counterexample: the claim's scenario deal, literally: opener
with 17 HCP and 4-3-3-3 shape holding 4 spades and 3 hearts, responder
with 5 hearts, 8 total points and no 4-card spade suit.  The claim
predicts a transfer to hearts with support length 4 and contracts 3H
(superaccept) versus 2H, a relevant deal.  In fact the opener's heart
support is `len(south.hearts) = 3`, so line 142 returns None for both
flags and the filter rejects the deal.  (Moreover, with total points
exactly 8, line 151 would bid game, level 4, not level 3.) -/
theorem c6_counterexample :
    dealC6.south.hcp = 17 ∧ dealC6.south.spades.len = 4 ∧
    dealC6.south.hearts.len = 3 ∧ dealC6.south.diamonds.len = 3 ∧
    dealC6.south.clubs.len = 3 ∧ dealC6.north.hearts.len = 5 ∧
    dealC6.north.spades.len < 4 ∧ ntp dealC6 = 8 ∧
    suit5 dealC6 = 'H' ∧ ssl dealC6 = 3 ∧
    contract dealC6 true = none ∧ contract dealC6 false = none ∧
    accept dealC6 = some false := by decide

/-- C6 amended: for every deal of the stated shape (opener 17 HCP,
4-3-3-3 with 4 spades and 3 hearts; responder 5 hearts, 8 total points,
no 4-card spade suit), the transfer is to hearts but the opener's
support length is 3, both engine invocations return undefined, and the
scenario filter marks the deal not relevant. -/
theorem c6_amended (d : Deal)
    (h1 : d.south.spades.len = 4) (h2 : d.south.hearts.len = 3)
    (h3 : d.south.diamonds.len = 3) (h4 : d.south.clubs.len = 3)
    (h5 : d.south.hcp = 17) (h6 : d.north.hearts.len = 5)
    (h7 : d.north.spades.len < 4) (h8 : ntp d = 8) :
    suit5 d = 'H' ∧ ssl d = 3 ∧ contract d true = none ∧
    contract d false = none ∧ accept d = some false := by
  have hsuit : suit5 d = 'H' := by
    unfold suit5; rw [if_pos (by omega)]
  have hssl : ssl d = 3 := by
    unfold ssl; rw [if_pos hsuit]; exact h2
  have hct : ∀ b, contract d b = none := by
    intro b
    unfold contract
    rw [if_neg (by omega), if_pos (by omega)]
  refine ⟨hsuit, hssl, hct true, hct false, ?_⟩
  simp only [accept]
  rw [if_neg (by omega), if_neg (by omega)]
  simp [hct]

/-- C6 amended witness: a concrete completion of the scenario deal; the
amended conclusion holds there. -/
theorem c6_amended_witness :
    suit5 dealC6 = 'H' ∧ ssl dealC6 = 3 ∧ contract dealC6 true = none ∧
    contract dealC6 false = none ∧ accept dealC6 = some false :=
  c6_amended dealC6 (by decide) (by decide) (by decide) (by decide)
    (by decide) (by decide) (by decide) (by decide)

/-- C7: the transferred suit in the 5-card branch.  With exactly one
5-card major, that suit; with two, spades on 10+ responder total
points, hearts on exactly 9, and below 9 the major with fewer losers,
ties going to spades. -/
theorem c7_suit_choice (d : Deal) (hs6 : d.north.spades.len < 6)
    (hh6 : d.north.hearts.len < 6)
    (h5 : d.north.spades.len >= 5 ∨ d.north.hearts.len >= 5) :
    (d.north.spades.len >= 5 ∧ d.north.hearts.len < 5 →
      suit5 d = 'S') ∧
    (d.north.hearts.len >= 5 ∧ d.north.spades.len < 5 →
      suit5 d = 'H') ∧
    (d.north.spades.len >= 5 ∧ d.north.hearts.len >= 5 →
      (ntp d >= 10 → suit5 d = 'S') ∧
      (ntp d = 9 → suit5 d = 'H') ∧
      (ntp d < 9 →
        (d.north.spades.losers < d.north.hearts.losers →
          suit5 d = 'S') ∧
        (d.north.hearts.losers < d.north.spades.losers →
          suit5 d = 'H') ∧
        (d.north.spades.losers = d.north.hearts.losers →
          suit5 d = 'S'))) := by
  refine ⟨?_, ?_, ?_⟩
  · rintro ⟨ha, hb⟩; unfold suit5; rw [if_neg (by omega), if_pos hb]
  · rintro ⟨ha, hb⟩; unfold suit5; rw [if_pos hb]
  · rintro ⟨ha, hb⟩
    refine ⟨?_, ?_, ?_⟩
    · intro h10; unfold suit5
      rw [if_neg (by omega), if_neg (by omega), if_pos h10]
    · intro h9; unfold suit5
      rw [if_neg (by omega), if_neg (by omega), if_neg (by omega),
        if_pos h9]
    · intro hlt
      refine ⟨?_, ?_, ?_⟩
      · intro hl; unfold suit5
        rw [if_neg (by omega), if_neg (by omega), if_neg (by omega),
          if_neg (by omega), if_pos (by omega)]
      · intro hl; unfold suit5
        rw [if_neg (by omega), if_neg (by omega), if_neg (by omega),
          if_neg (by omega), if_neg (by omega)]
      · intro hl; unfold suit5
        rw [if_neg (by omega), if_neg (by omega), if_neg (by omega),
          if_neg (by omega), if_pos (by omega)]

/-- C7 witness: responder 5-5 with exactly 9 total points transfers to
hearts. -/
theorem c7_witness : ntp dealC7 = 9 ∧ suit5 dealC7 = 'H' :=
  ⟨by decide,
   ((c7_suit_choice dealC7 (by decide) (by decide)
       (Or.inl (by decide))).2.2 ⟨by decide, by decide⟩).2.1 (by decide)⟩

/-- C8: on a relevant trial the SAME_SCORE counter is incremented
exactly when the two non-vulnerable double-dummy scores are equal, the
superaccept contract's auction level is strictly higher, and the two
contracts have the same strain. -/
theorem c8_same_score_counter (d : Deal) (sc nsc : List Char) (k : Nat)
    (ns_nv s_nv : Int) (ha : accept d = some true)
    (hsc : contract d true = some sc)
    (hnsc : contract d false = some nsc) :
    same_score_after k ns_nv s_nv sc nsc = k + 1 ↔
      (ns_nv = s_nv ∧ levelOf sc > levelOf nsc ∧
        strainOf sc = strainOf nsc) := by
  have h1 := contract_level_char d true sc hsc
  have h2 := contract_level_char d false nsc hnsc
  have hlt : (nsc.getD 0 ' ' < sc.getD 0 ' ') ↔
      (levelOf nsc < levelOf sc) := by
    unfold levelOf
    exact char_digit_lt_iff _ _ h1 h2
  unfold same_score_after
  split_ifs with hc
  · exact iff_of_true rfl ⟨hc.1, hlt.mp hc.2.1, hc.2.2.symm⟩
  · refine iff_of_false (by omega) ?_
    rintro ⟨hxy, hlvl, hst⟩
    exact hc ⟨hxy, hlt.mpr hlvl, hst.symm⟩

/-- C8 witness: a relevant deal with contracts 4H and 2H; with equal
non-vulnerable scores the counter goes from 0 to 1, and the condition
of the claim holds. -/
theorem c8_witness :
    accept dealC8 = some true ∧
    (same_score_after 0 100 100 ['4', 'H', 'S'] ['2', 'H', 'S'] =
        0 + 1 ↔
      ((100 : Int) = 100 ∧
        levelOf ['4', 'H', 'S'] > levelOf ['2', 'H', 'S'] ∧
        strainOf ['4', 'H', 'S'] = strainOf ['2', 'H', 'S'])) :=
  ⟨by decide,
   c8_same_score_counter dealC8 ['4', 'H', 'S'] ['2', 'H', 'S'] 0 100 100
     (by decide) (by decide) (by decide)⟩

/-- C9: the contract depends only on the North and South hands; two
deals agreeing on those two seats get identical contracts under either
flag, so the East and West hands never influence the result. -/
theorem c9_ew_independence (d1 d2 : Deal) (b : Bool)
    (hN : d1.north = d2.north) (hS : d1.south = d2.south) :
    contract d1 b = contract d2 b := by
  unfold contract
  unfold ssl nol sl6
  unfold suit5 suit6
  unfold ntp
  unfold dist_points
  rw [hN, hS]

/-- C9 witness: two concrete deals with equal North and South hands but
East and West exchanged produce the same contract. -/
theorem c9_witness :
    dealC9a.north = dealC9b.north ∧ dealC9a.south = dealC9b.south ∧
    dealC9a.east ≠ dealC9b.east ∧
    contract dealC9a true = contract dealC9b true :=
  ⟨rfl, rfl, by decide, c9_ew_independence dealC9a dealC9b true rfl rfl⟩

/-- C10: every defined contract under superaccept=true is at level 3 or
4 in the transferred major, declared by South (the opener); in
particular a level-2 code can only come from superaccept=false. -/
theorem c10_superaccept_level (d : Deal) (c : List Char)
    (h : contract d true = some c) :
    ∃ su, (su = 'H' ∨ su = 'S') ∧
      (c = ['3', su, 'S'] ∨ c = ['4', su, 'S']) :=
  contract_true_cases d true rfl c h

/-- C10 witness: a concrete deal whose superaccept contract is 4H. -/
theorem c10_witness :
    contract dealC10 true = some ['4', 'H', 'S'] ∧
    ∃ su, (su = 'H' ∨ su = 'S') ∧
      ((['4', 'H', 'S'] : List Char) = ['3', su, 'S'] ∨
        (['4', 'H', 'S'] : List Char) = ['4', su, 'S']) :=
  ⟨by decide, c10_superaccept_level dealC10 ['4', 'H', 'S'] (by decide)⟩

end Superaccept
